import Mathlib

/-!
Verification development for the PPE-compliance tracking repository.

The embedding covers:
* `src/src/inference/trackers.py` — class `TrackState`: deduplicated
  violation counting per (track, zone, day), liveness bookkeeping,
  occlusion-tolerant PPE-status memory, day rollover, state export/import.
* `src/src/inference/zoning.py` — bbox geometry and point-in-polygon.
* `src/src/rules/violations.py` — the violation evaluator `is_violation`.

Modelling conventions:
* Python dicts keyed by track id become association lists
  `List (Nat × α)` with first-match lookup; insertion replaces in place
  (matching dict key-update semantics) or appends (matching dict
  insertion order for a fresh key).
* Wall-clock reads (`time.time()`, `datetime.now().date()`) become
  explicit parameters `now : ℚ` and `today : Nat` (day ordinal) on each
  operation that performs them.
* Python floats become ℚ; exact comparisons in the source are modelled
  exactly.
* `TrackState._violation_frames` is initialized by `__init__` but never
  read or written by any other method, so it is omitted from the state.
-/

namespace AICompliance

/-- First-match lookup in an association list keyed by `Nat`,
modelling Python `d.get(k)` / `k in d`. -/
def lookupA {α : Type} (k : Nat) : List (Nat × α) → Option α
  | [] => none
  | (k', v) :: rest => if k' = k then some v else lookupA k rest

/-- Keyed insertion modelling Python `d[k] = v`: replaces the value in
place when the key is present, appends otherwise (dict insertion order). -/
def insertA {α : Type} (k : Nat) (v : α) : List (Nat × α) → List (Nat × α)
  | [] => [(k, v)]
  | (k', v') :: rest => if k' = k then (k, v) :: rest else (k', v') :: insertA k v rest

/-- One memorized PPE observation, the value stored in
`TrackState._ppe_history[track_id]`:
`{'has_helmet': …, 'has_vest': …, 'frame': …, 'confidence': …}`. -/
structure PpeRecord where
  hasHelmet : Bool
  hasVest : Bool
  frame : Int
  confidence : ℚ
deriving DecidableEq, Repr

/-- The state of `TrackState` (trackers.py, `__init__`, lines 24–50):
`reset_hour`, `_violation_zones` (track → set of zones counted today),
`_last_seen` (track → timestamp), `_last_zone` (track → zone),
`_ppe_history` (track → last confident PPE record) and `_current_date`.
Zone sets are lists with membership semantics; a zone is added at most
once per day so no duplicates arise. -/
structure TrackState where
  resetHour : Nat
  violationZones : List (Nat × List String)
  lastSeen : List (Nat × ℚ)
  lastZone : List (Nat × String)
  ppeHistory : List (Nat × PpeRecord)
  currentDate : Nat
deriving DecidableEq, Repr

/-- `TrackState.__init__(reset_hour)`: empty maps, stored date set from
the wall clock (`today`). -/
def initState (today : Nat) (resetHour : Nat) : TrackState :=
  { resetHour := resetHour
    violationZones := []
    lastSeen := []
    lastZone := []
    ppeHistory := []
    currentDate := today }

/-- `TrackState.reset` (lines 59–64): clears `_violation_zones`,
`_last_seen`, `_last_zone`; `_ppe_history` and `_current_date` are
untouched. -/
def TrackState.resetOp (s : TrackState) : TrackState :=
  { s with violationZones := [], lastSeen := [], lastZone := [] }

/-- `TrackState._check_date_reset` (lines 52–57): if the wall-clock date
is strictly past the stored date, call `reset` and advance the stored
date; otherwise do nothing. -/
def checkDateReset (today : Nat) (s : TrackState) : TrackState :=
  if today > s.currentDate then
    { s.resetOp with currentDate := today }
  else s

/-- `TrackState.should_count(track_id, zone, is_violation)`
(lines 66–112): after the date-reset check, always record last-seen and
last-zone; return `false` when not a violation or when `zone` is already
in the track's counted set, else add the zone and return `true`. -/
def shouldCount (now : ℚ) (today : Nat) (trackId : Nat) (zone : String)
    (isViolation : Bool) (s : TrackState) : Bool × TrackState :=
  let s1 := checkDateReset today s
  let s2 := { s1 with lastSeen := insertA trackId now s1.lastSeen
                      lastZone := insertA trackId zone s1.lastZone }
  if isViolation then
    match lookupA trackId s2.violationZones with
    | some zones =>
        if zone ∈ zones then (false, s2)
        else (true, { s2 with violationZones := insertA trackId (zones ++ [zone]) s2.violationZones })
    | none =>
        (true, { s2 with violationZones := insertA trackId [zone] s2.violationZones })
  else (false, s2)

/-- `TrackState.update_seen(track_id, zone, timestamp)` (lines 114–135):
date-reset check, then record the given (or current) timestamp and the
zone. -/
def updateSeen (now : ℚ) (today : Nat) (trackId : Nat) (zone : String)
    (timestamp : Option ℚ) (s : TrackState) : TrackState :=
  let s1 := checkDateReset today s
  let ts := timestamp.getD now
  { s1 with lastSeen := insertA trackId ts s1.lastSeen
            lastZone := insertA trackId zone s1.lastZone }

/-- The zone list counted today for a track:
`self._violation_zones[track_id]` viewed without the defaultdict
auto-insertion (missing key reads as the empty set). -/
def countedZones (trackId : Nat) (s : TrackState) : List String :=
  (lookupA trackId s.violationZones).getD []

/-- `TrackState.cleanup_old_tracks(max_age_seconds)` (lines 198–233):
date-reset check, then drop from `_last_seen` and `_last_zone` every
track whose last-seen time is strictly older than `max_age_seconds`;
`_violation_zones` is kept. Returns the number of stale tracks. -/
def cleanupOldTracks (now : ℚ) (today : Nat) (maxAgeSeconds : ℚ)
    (s : TrackState) : Nat × TrackState :=
  let s1 := checkDateReset today s
  let staleIds := (s1.lastSeen.filter (fun p => now - p.2 > maxAgeSeconds)).map Prod.fst
  (staleIds.length,
   { s1 with lastSeen := s1.lastSeen.filter (fun p => ¬ (now - p.2 > maxAgeSeconds))
             lastZone := s1.lastZone.filter (fun p => p.1 ∉ staleIds) })

/-- The per-zone violation counts computed inside `get_stats`
(lines 184–188): a `defaultdict(int)` bumped once per (track, zone). -/
def bumpZone (z : String) : List (String × Nat) → List (String × Nat)
  | [] => [(z, 1)]
  | (z', n) :: rest => if z' = z then (z', n + 1) :: rest else (z', n) :: bumpZone z rest

/-- Fold of `bump_zone` over every zone of every track, in map order. -/
def zoneCounts (vz : List (Nat × List String)) : List (String × Nat) :=
  vz.foldl (fun acc p => p.2.foldl (fun acc' z => bumpZone z acc') acc) []

/-- The dictionary returned by `TrackState.get_stats` (lines 163–196). -/
structure Stats where
  uniqueTracks : Nat
  totalViolations : Nat
  violationsPerZone : List (String × Nat)
  activeTracks : Nat
  currentDate : Nat
deriving DecidableEq, Repr

/-- `TrackState.get_stats` (lines 163–196): read-only statistics over
the current maps. -/
def getStats (s : TrackState) : Stats :=
  { uniqueTracks := s.violationZones.length
    totalViolations := (s.violationZones.map (fun p => p.2.length)).sum
    violationsPerZone := zoneCounts s.violationZones
    activeTracks := s.lastSeen.length
    currentDate := s.currentDate }

/-- The dictionary returned by `TrackState.export_state` (lines 235–251):
the date marker, the three dedup/liveness maps, and a stats snapshot.
`_ppe_history` does not appear in the export. -/
structure ExportedState where
  currentDate : Nat
  violationZones : List (Nat × List String)
  lastSeen : List (Nat × ℚ)
  lastZone : List (Nat × String)
  stats : Stats
deriving DecidableEq, Repr

/-- `TrackState.export_state` (lines 235–251). -/
def exportState (s : TrackState) : ExportedState :=
  { currentDate := s.currentDate
    violationZones := s.violationZones
    lastSeen := s.lastSeen
    lastZone := s.lastZone
    stats := getStats s }

/-- `TrackState.import_state(state_dict)` (lines 253–268): overwrites
`_current_date`, `_violation_zones`, `_last_seen`, `_last_zone` from the
dictionary; `_ppe_history` (and `reset_hour`) keep their current values. -/
def importState (e : ExportedState) (s : TrackState) : TrackState :=
  { s with currentDate := e.currentDate
           violationZones := e.violationZones
           lastSeen := e.lastSeen
           lastZone := e.lastZone }

/-- `TrackState.update_ppe_status(track_id, has_helmet, has_vest,
frame_idx, confidence)` (lines 270–290): overwrite the memorized record
only when `confidence > 0.7`, otherwise do nothing. No date-reset check
is performed by this method. -/
def updatePpeStatus (trackId : Nat) (hasHelmet hasVest : Bool)
    (frameIdx : Int) (confidence : ℚ) (s : TrackState) : TrackState :=
  if confidence > 7/10 then
    let r : PpeRecord :=
      { hasHelmet := hasHelmet, hasVest := hasVest
        frame := frameIdx, confidence := confidence }
    { s with ppeHistory := insertA trackId r s.ppeHistory }
  else s

/-- `TrackState.get_ppe_status(track_id, frame_idx, max_frame_gap)`
(lines 292–317): return the memorized record when one exists and
`frame_idx - record.frame <= max_frame_gap`, else `None`. -/
def getPpeStatus (trackId : Nat) (frameIdx : Int) (maxFrameGap : Int)
    (s : TrackState) : Option PpeRecord :=
  match lookupA trackId s.ppeHistory with
  | none => none
  | some r => if frameIdx - r.frame ≤ maxFrameGap then some r else none

/-! ## Geometry: zoning.py -/

/-- A bounding box `(x1, y1, x2, y2)` with rational coordinates. -/
structure BBox where
  x1 : ℚ
  y1 : ℚ
  x2 : ℚ
  y2 : ℚ
deriving DecidableEq, Repr

/-- `bbox_centroid` (zoning.py lines 9–26). -/
def bbox_centroid (b : BBox) : ℚ × ℚ :=
  ((b.x1 + b.x2) / 2, (b.y1 + b.y2) / 2)

/-- Python `int(q)`: truncation toward zero. -/
def truncQ (q : ℚ) : Int :=
  if q ≥ 0 then ⌊q⌋ else ⌈q⌉

/-- `head_region` (zoning.py lines 29–52): keep the top
`int(height * top_ratio)` of the person box, full width. -/
def head_region (b : BBox) (topFrac : ℚ) : BBox :=
  { b with y2 := b.y1 + ((truncQ ((b.y2 - b.y1) * topFrac) : Int) : ℚ) }

/-- `bbox_iou` (zoning.py lines 55–93): intersection over union, defined
as `0` when the union area is not positive. -/
def bbox_iou (a b : BBox) : ℚ :=
  let interW := max 0 (min a.x2 b.x2 - max a.x1 b.x1)
  let interH := max 0 (min a.y2 b.y2 - max a.y1 b.y1)
  let interArea := interW * interH
  let areaA := (a.x2 - a.x1) * (a.y2 - a.y1)
  let areaB := (b.x2 - b.x1) * (b.y2 - b.y1)
  let unionArea := areaA + areaB - interArea
  if unionArea > 0 then interArea / unionArea else 0

/-- `bbox_area` (zoning.py lines 135–154): clamps negative extents to 0. -/
def bbox_area (b : BBox) : ℚ :=
  max 0 (b.x2 - b.x1) * max 0 (b.y2 - b.y1)

/-- `is_valid_bbox` (zoning.py lines 157–184): coordinates in order and
area at least `min_area` (default 1.0). -/
def is_valid_bbox (b : BBox) (minArea : ℚ := 1) : Bool :=
  if b.x2 ≤ b.x1 ∨ b.y2 ≤ b.y1 then false
  else decide (bbox_area b ≥ minArea)

/-- A point in the plane. -/
abbrev Pt := ℚ × ℚ

/-- The edge list of a polygon given by its vertex list, closing the
ring back to the first vertex. -/
def polyEdges (pts : List Pt) : List (Pt × Pt) :=
  match pts with
  | [] => []
  | p :: _ => pts.zip (pts.tail ++ [p])

/-- Twice the signed area of triangle `o a b`; zero iff collinear. -/
def cross2 (o a b : Pt) : ℚ :=
  (a.1 - o.1) * (b.2 - o.2) - (a.2 - o.2) * (b.1 - o.1)

/-- Whether `p` lies on the closed segment `e`. -/
def onSegment (p : Pt) (e : Pt × Pt) : Bool :=
  decide (cross2 e.1 e.2 p = 0 ∧
          min e.1.1 e.2.1 ≤ p.1 ∧ p.1 ≤ max e.1.1 e.2.1 ∧
          min e.1.2 e.2.2 ≤ p.2 ∧ p.2 ≤ max e.1.2 e.2.2)

/-- Whether the horizontal ray from `p` towards `+x` crosses edge `e`
(standard even-odd ray-casting test). -/
def rayCrosses (p : Pt) (e : Pt × Pt) : Bool :=
  let a := e.1
  let b := e.2
  (decide (a.2 > p.2) != decide (b.2 > p.2)) &&
  decide (p.1 < (b.1 - a.1) * (p.2 - a.2) / (b.2 - a.2) + a.1)

/-- Whether `p` lies on the boundary of the polygon ring `pts`. -/
def pointOnBoundary (pts : List Pt) (p : Pt) : Bool :=
  (polyEdges pts).any (onSegment p)

/-- Even-odd crossing parity of the ray from `p` with the ring `pts`. -/
def oddCrossings (pts : List Pt) (p : Pt) : Bool :=
  decide ((polyEdges pts).countP (rayCrosses p) % 2 = 1)

/-- Models shapely `Polygon(points).is_valid and
Polygon(points).contains(Point(p))` as called by `point_in_polygons`
(zoning.py lines 120–130). Shapely `contains` for a point holds exactly
when the point lies in the topological interior of the polygon, so
boundary points are NOT contained; for a simple polygon this is the
even-odd crossing rule restricted to non-boundary points. Shapely
raises on fewer than 3 coordinates (caught and skipped by the `except`
branch), modelled by the length guard. -/
def polygonContains (pts : List Pt) (p : Pt) : Bool :=
  decide (pts.length ≥ 3) && !(pointOnBoundary pts p) && oddCrossings pts p

/-- A zone polygon dict `{'name': …, 'points': …, 'mandatory_helmet': …}`;
`mandatory_helmet` defaults to `True` when absent
(violations.py line 75). -/
structure ZonePoly where
  name : String
  points : List Pt
  mandatoryHelmet : Bool := true
deriving DecidableEq, Repr

/-- `point_in_polygons` (zoning.py lines 96–132): scan the polygons in
list order, returning `(True, name)` for the first one containing the
point, `(False, "")` when none does. -/
def point_in_polygons (p : Pt) (polys : List ZonePoly) : Bool × String :=
  match polys with
  | [] => (false, "")
  | z :: rest =>
      if polygonContains z.points p then (true, z.name)
      else point_in_polygons p rest

/-! ## Violation evaluator: violations.py -/

/-- The helmet-detection loop of `is_violation` (violations.py
lines 83–91): some helmet box is valid and overlaps the head region with
IoU strictly above the threshold. -/
def helmetDetected (helmets : List BBox) (headBbox : BBox)
    (headIouThresh : ℚ) : Bool :=
  helmets.any (fun h => is_valid_bbox h && decide (bbox_iou h headBbox > headIouThresh))

/-- Steps 2–7 of `is_violation` (violations.py lines 65–95): everything
after the person-bbox validation gate — zone containment, the
mandatory-helmet flag check, and the head-region helmet test. -/
def evalInZone (person : BBox) (helmets : List BBox) (zones : List ZonePoly)
    (headIouThresh : ℚ) (headFrac : ℚ) : Bool × String :=
  let pz := point_in_polygons (bbox_centroid person) zones
  if !pz.1 then (false, "")
  else
    let zoneName := pz.2
    let zoneOpt := zones.find? (fun z => z.name == zoneName)
    if (match zoneOpt with | some z => !z.mandatoryHelmet | none => false) then
      (false, zoneName)
    else
      let headBbox := head_region person headFrac
      (!(helmetDetected helmets headBbox headIouThresh), zoneName)

/-- `is_violation` (violations.py lines 25–95): reject invalid person
boxes, then evaluate zone containment and helmet presence. Defaults:
`head_iou_thresh = 0.05`, `head_ratio = 0.35`. -/
def is_violation (person : BBox) (helmets : List BBox) (zones : List ZonePoly)
    (headIouThresh : ℚ := 5/100) (headFrac : ℚ := 35/100) : Bool × String :=
  if !(is_valid_bbox person) then (false, "")
  else evalInZone person helmets zones headIouThresh headFrac

/-! ## Remaining TrackState surface and an operation language -/

/-- The dictionary returned by `TrackState.get_track_info`
(trackers.py lines 137–161). -/
structure TrackInfo where
  trackId : Nat
  violationZones : List String
  lastSeen : Option ℚ
  lastZone : Option String
  violationCount : Nat
deriving DecidableEq, Repr

/-- `TrackState.get_track_info(track_id)` (lines 137–161): read-only
view of one track. -/
def getTrackInfo (trackId : Nat) (s : TrackState) : TrackInfo :=
  { trackId := trackId
    violationZones := (lookupA trackId s.violationZones).getD []
    lastSeen := lookupA trackId s.lastSeen
    lastZone := lookupA trackId s.lastZone
    violationCount := ((lookupA trackId s.violationZones).getD []).length }

/-- `n` successive calls `should_count(track_id, zone, True)` on the
same wall clock, collecting the returned booleans. -/
def iterShouldCount (now : ℚ) (today : Nat) (trackId : Nat) (zone : String) :
    Nat → TrackState → List Bool × TrackState
  | 0, s => ([], s)
  | n + 1, s =>
      let r := shouldCount now today trackId zone true s
      let rest := iterShouldCount now today trackId zone n r.2
      (r.1 :: rest.1, rest.2)

/-- One call to the public `TrackState` interface, with its wall-clock
inputs made explicit. -/
inductive Op where
  | opShouldCount (now : ℚ) (today : Nat) (trackId : Nat) (zone : String) (isViolation : Bool)
  | opUpdateSeen (now : ℚ) (today : Nat) (trackId : Nat) (zone : String) (timestamp : Option ℚ)
  | opCleanup (now : ℚ) (today : Nat) (maxAgeSeconds : ℚ)
  | opUpdatePpe (trackId : Nat) (hasHelmet hasVest : Bool) (frameIdx : Int) (confidence : ℚ)
  | opGetPpe (trackId : Nat) (frameIdx maxFrameGap : Int)
  | opGetTrackInfo (trackId : Nat)
  | opGetStats
  | opExport
  | opImport (e : ExportedState)
  | opReset
deriving DecidableEq, Repr

/-- The value returned by one `TrackState` call. -/
inductive OpResult where
  | rBool (b : Bool)
  | rNat (n : Nat)
  | rUnit
  | rPpe (r : Option PpeRecord)
  | rInfo (i : TrackInfo)
  | rStats (st : Stats)
  | rExport (e : ExportedState)
deriving DecidableEq, Repr

/-- Dispatch one call to the corresponding `TrackState` method. -/
def applyOp (op : Op) (s : TrackState) : OpResult × TrackState :=
  match op with
  | .opShouldCount now today trackId zone iv =>
      let r := shouldCount now today trackId zone iv s
      (.rBool r.1, r.2)
  | .opUpdateSeen now today trackId zone ts =>
      (.rUnit, updateSeen now today trackId zone ts s)
  | .opCleanup now today age =>
      let r := cleanupOldTracks now today age s
      (.rNat r.1, r.2)
  | .opUpdatePpe trackId hh hv fi c =>
      (.rUnit, updatePpeStatus trackId hh hv fi c s)
  | .opGetPpe trackId fi gap => (.rPpe (getPpeStatus trackId fi gap s), s)
  | .opGetTrackInfo trackId => (.rInfo (getTrackInfo trackId s), s)
  | .opGetStats => (.rStats (getStats s), s)
  | .opExport => (.rExport (exportState s), s)
  | .opImport e => (.rUnit, importState e s)
  | .opReset => (.rUnit, s.resetOp)

/-- Run a sequence of calls, collecting every returned value. -/
def runOps : List Op → TrackState → List OpResult × TrackState
  | [], s => ([], s)
  | op :: ops, s =>
      let r := applyOp op s
      let rest := runOps ops r.2
      (r.1 :: rest.1, rest.2)

/-- Every component of the state except the stored `reset_hour`
constructor parameter. -/
def observables (s : TrackState) :
    List (Nat × List String) × List (Nat × ℚ) × List (Nat × String) ×
    List (Nat × PpeRecord) × Nat :=
  (s.violationZones, s.lastSeen, s.lastZone, s.ppeHistory, s.currentDate)

/-- Overwrite only the stored `reset_hour` constructor parameter. -/
def setResetHour (rh : Nat) (s : TrackState) : TrackState := { s with resetHour := rh }

/-! ## Concrete fixtures used by witnesses and counterexamples -/

/-- The axis-aligned square with corners `(0,0)` and `(100,100)`. -/
def sqPts : List Pt := [(0, 0), (100, 0), (100, 100), (0, 100)]

/-- A zone over `sqPts`. -/
def zoneCrane : ZonePoly := { name := "CraneBay", points := sqPts }

/-- A second, overlapping zone over the same square. -/
def zoneDock : ZonePoly := { name := "LoadingDock", points := sqPts }

/-- The mandatory-helmet zone from the `is_violation` docstring:
rectangle `(0,0)`–`(300,500)`. -/
def zoneBig : ZonePoly := { name := "CraneBay", points := [(0, 0), (300, 0), (300, 500), (0, 500)] }

/-- A degenerate-but-positive person box: width and height `1/2`, so its
area `1/4` is below the validator's `min_area = 1`. -/
def tinyBox : BBox := { x1 := 0, y1 := 0, x2 := 1/2, y2 := 1/2 }

/-- An example state for the cleanup scenario: track 3 last seen at
`t = 600`, track 4 at `t = 990`, track 3 already counted in "Dock". -/
def stateCleanup : TrackState :=
  { resetHour := 0
    violationZones := [(3, ["Dock"])]
    lastSeen := [(3, 600), (4, 990)]
    lastZone := [(3, "Dock"), (4, "Yard")]
    ppeHistory := []
    currentDate := 0 }

/-- An example state with a nonempty PPE memory, for the export/import
round trip. -/
def stateWithPpe : TrackState :=
  { resetHour := 0
    violationZones := [(1, ["A"])]
    lastSeen := [(1, 100)]
    lastZone := [(1, "A")]
    ppeHistory := [(1, { hasHelmet := true, hasVest := true, frame := 5, confidence := 1 })]
    currentDate := 7 }

/-- PPE memory after one confident observation at frame 0. -/
def statePpe30 : TrackState := updatePpeStatus 1 true false 0 1 (initState 0 0)

/-- The record stored by `statePpe30`. -/
def ppeRec30 : PpeRecord := { hasHelmet := true, hasVest := false, frame := 0, confidence := 1 }

/-- A store carrying one counted (track, zone) pair at stored date 0,
used while the ambient wall clock has moved to day 1. -/
def stateDay0 : TrackState :=
  { resetHour := 0
    violationZones := [(1, ["A"])]
    lastSeen := [(1, 5)]
    lastZone := [(1, "A")]
    ppeHistory := []
    currentDate := 0 }

/-! ## Association-list lemmas -/

theorem lookupA_insertA_self {α : Type} (k : Nat) (v : α) (l : List (Nat × α)) :
    lookupA k (insertA k v l) = some v := by
  induction l with
  | nil => simp [insertA, lookupA]
  | cons p rest ih =>
      obtain ⟨k1, v1⟩ := p
      by_cases h : k1 = k
      · subst h; simp [insertA, lookupA]
      · simp [insertA, lookupA, h, ih]

theorem lookupA_insertA_ne {α : Type} (k k2 : Nat) (v : α) (l : List (Nat × α))
    (h : k ≠ k2) : lookupA k2 (insertA k v l) = lookupA k2 l := by
  induction l with
  | nil => simp [insertA, lookupA, h]
  | cons p rest ih =>
      obtain ⟨k1, v1⟩ := p
      by_cases h1 : k1 = k
      · subst h1; simp [insertA, lookupA, h]
      · simp [insertA, lookupA, h1, ih]

theorem lookupA_eq_none_iff {α : Type} (k : Nat) (l : List (Nat × α)) :
    lookupA k l = none ↔ k ∉ l.map Prod.fst := by
  induction l with
  | nil => simp [lookupA]
  | cons p rest ih =>
      obtain ⟨k1, v1⟩ := p
      by_cases h1 : k1 = k
      · subst h1; simp [lookupA]
      · simp [lookupA, h1, ih, Ne.symm h1]

theorem mem_of_lookupA {α : Type} {k : Nat} {v : α} {l : List (Nat × α)}
    (h : lookupA k l = some v) : (k, v) ∈ l := by
  induction l with
  | nil => simp [lookupA] at h
  | cons p rest ih =>
      obtain ⟨k1, v1⟩ := p
      by_cases h1 : k1 = k
      · subst h1
        simp [lookupA] at h
        subst h
        exact List.mem_cons_self _ _
      · simp [lookupA, h1] at h
        exact List.mem_cons_of_mem _ (ih h)

theorem lookupA_of_mem_nodup {α : Type} {k : Nat} {v : α} {l : List (Nat × α)}
    (hn : (l.map Prod.fst).Nodup) (hm : (k, v) ∈ l) : lookupA k l = some v := by
  induction l with
  | nil => simp at hm
  | cons p rest ih =>
      obtain ⟨k1, v1⟩ := p
      rw [List.map_cons, List.nodup_cons] at hn
      rcases List.mem_cons.mp hm with heq | hmem
      · rw [Prod.mk.injEq] at heq
        obtain ⟨hk, hv⟩ := heq
        subst hk; subst hv
        simp [lookupA]
      · have h1 : k1 ≠ k := by
          intro e
          subst e
          exact hn.1 (List.mem_map.mpr ⟨(k1, v), hmem, rfl⟩)
        simp [lookupA, h1]
        exact ih hn.2 hmem

theorem lookupA_filter {α : Type} (p : Nat × α → Bool) (k : Nat) (l : List (Nat × α))
    (hn : (l.map Prod.fst).Nodup) :
    lookupA k (l.filter p) =
      (lookupA k l).bind (fun v => if p (k, v) then some v else none) := by
  induction l with
  | nil => simp [lookupA]
  | cons q rest ih =>
      obtain ⟨k1, v1⟩ := q
      rw [List.map_cons, List.nodup_cons] at hn
      by_cases h1 : k1 = k
      · subst h1
        by_cases hp : p (k1, v1)
        · simp [List.filter_cons, hp, lookupA]
        · have h2 : lookupA k1 (rest.filter p) = none := by
            rw [lookupA_eq_none_iff]
            intro hmem
            rcases List.mem_map.mp hmem with ⟨pair, hpair, hfst⟩
            exact hn.1 (List.mem_map.mpr ⟨pair, List.mem_of_mem_filter hpair, hfst⟩)
          simp [List.filter_cons, hp, lookupA, h2]
      · by_cases hp : p (k1, v1) <;>
          simp [List.filter_cons, hp, lookupA, h1, ih hn.2]

theorem lookupA_filter_keep {α : Type} (p : Nat × α → Bool) (k : Nat) (v : α)
    (l : List (Nat × α)) (hn : (l.map Prod.fst).Nodup)
    (hv : lookupA k l = some v) (hp : p (k, v) = true) :
    lookupA k (l.filter p) = some v := by
  rw [lookupA_filter p k l hn, hv]
  simp [hp]

theorem lookupA_filter_drop {α : Type} (p : Nat × α → Bool) (k : Nat) (v : α)
    (l : List (Nat × α)) (hn : (l.map Prod.fst).Nodup)
    (hv : lookupA k l = some v) (hp : p (k, v) = false) :
    lookupA k (l.filter p) = none := by
  rw [lookupA_filter p k l hn, hv]
  simp [hp]

theorem lookupA_filter_none {α : Type} (p : Nat × α → Bool) (k : Nat)
    (l : List (Nat × α)) (hn : (l.map Prod.fst).Nodup)
    (hv : lookupA k l = none) : lookupA k (l.filter p) = none := by
  rw [lookupA_filter p k l hn, hv]
  rfl

/-- `_check_date_reset` does nothing while the wall-clock date has not
advanced past the stored date. -/
theorem checkDateReset_noop {today : Nat} {s : TrackState}
    (h : today ≤ s.currentDate) : checkDateReset today s = s := by
  have h2 : ¬ (today > s.currentDate) := by omega
  simp [checkDateReset, h2]

/-- `should_count` on a violation for an uncounted (track, zone) pair,
within the day: returns `true`, records liveness, appends the zone. -/
theorem shouldCount_fresh (now : ℚ) (today : Nat) (s : TrackState) (trackId : Nat)
    (zone : String) (hday : today = s.currentDate)
    (hz : zone ∉ countedZones trackId s) :
    shouldCount now today trackId zone true s =
      (true,
        { s with lastSeen := insertA trackId now s.lastSeen
                 lastZone := insertA trackId zone s.lastZone
                 violationZones :=
                   insertA trackId (countedZones trackId s ++ [zone]) s.violationZones }) := by
  have hcd : checkDateReset today s = s := checkDateReset_noop (le_of_eq hday)
  cases hl : lookupA trackId s.violationZones with
  | none => simp [shouldCount, hcd, hl, countedZones]
  | some zones =>
      have hz2 : zone ∉ zones := by
        rw [countedZones, hl] at hz
        exact hz
      simp [shouldCount, hcd, hl, hz2, countedZones]

/-- `should_count` on a violation for an already-counted (track, zone)
pair, within the day: returns `false` and only records liveness. -/
theorem shouldCount_already (now : ℚ) (today : Nat) (s : TrackState) (trackId : Nat)
    (zone : String) (hday : today = s.currentDate)
    (hz : zone ∈ countedZones trackId s) :
    shouldCount now today trackId zone true s =
      (false,
        { s with lastSeen := insertA trackId now s.lastSeen
                 lastZone := insertA trackId zone s.lastZone }) := by
  have hcd : checkDateReset today s = s := checkDateReset_noop (le_of_eq hday)
  cases hl : lookupA trackId s.violationZones with
  | none =>
      rw [countedZones, hl] at hz
      simp at hz
  | some zones =>
      have hz2 : zone ∈ zones := by
        rw [countedZones, hl] at hz
        exact hz
      simp [shouldCount, hcd, hl, hz2]

/-- Boolean projection of `shouldCount_already`, with the membership
hypothesis first so the state can be inferred from it. -/
theorem shouldCount_false_of_counted (now : ℚ) (today : Nat) (s : TrackState)
    (trackId : Nat) (zone : String) (hz : zone ∈ countedZones trackId s)
    (hday : today = s.currentDate) :
    (shouldCount now today trackId zone true s).1 = false := by
  rw [shouldCount_already now today s trackId zone hday hz]

/-- Once a (track, zone) pair is counted, further same-day calls keep
returning `false` and leave the dedup map unchanged. -/
theorem iterShouldCount_replicate_false (now : ℚ) (today : Nat) (trackId : Nat)
    (zone : String) : ∀ (m : Nat) (s : TrackState), today = s.currentDate →
    zone ∈ countedZones trackId s →
    (iterShouldCount now today trackId zone m s).1 = List.replicate m false := by
  intro m
  induction m with
  | zero => intro s _ _; simp [iterShouldCount]
  | succ k ih =>
      intro s hday hz
      have hstep := shouldCount_already now today s trackId zone hday hz
      have hday2 : today = (shouldCount now today trackId zone true s).2.currentDate := by
        rw [hstep]
        exact hday
      have hz2 : zone ∈ countedZones trackId (shouldCount now today trackId zone true s).2 := by
        rw [hstep]
        simpa [countedZones] using hz
      have hfst : (shouldCount now today trackId zone true s).1 = false := by
        rw [hstep]
      simp [iterShouldCount, hfst, ih _ hday2 hz2, List.replicate_succ]

/-! ## Claims -/

/-- Claim C1: within a single day, a sequence of `n` calls
`should_count(i, z, True)` starting from a state where (i, z) is not yet
counted returns `True` on exactly the first call and `False` on the
remaining `n - 1`; moreover zones are independent — after counting zone
`z`, any different uncounted zone still returns `True`. -/
theorem claim_C1_count_once_per_zone (now : ℚ) (today : Nat) (s : TrackState)
    (trackId : Nat) (zone : String) (n : Nat) (hday : today = s.currentDate)
    (hz : zone ∉ countedZones trackId s) (hn : 0 < n) :
    (iterShouldCount now today trackId zone n s).1 = true :: List.replicate (n - 1) false
    ∧ ∀ zone2, zone2 ≠ zone → zone2 ∉ countedZones trackId s →
        (shouldCount now today trackId zone2 true
            (shouldCount now today trackId zone true s).2).1 = true := by
  have hstep := shouldCount_fresh now today s trackId zone hday hz
  have hday2 : today = (shouldCount now today trackId zone true s).2.currentDate := by
    rw [hstep]
    exact hday
  have hcz : countedZones trackId (shouldCount now today trackId zone true s).2 =
      countedZones trackId s ++ [zone] := by
    rw [hstep]
    simp [countedZones, lookupA_insertA_self]
  constructor
  · obtain ⟨k, rfl⟩ : ∃ k, n = k + 1 := ⟨n - 1, by omega⟩
    have hz2 : zone ∈ countedZones trackId (shouldCount now today trackId zone true s).2 := by
      rw [hcz]
      simp
    have hfst : (shouldCount now today trackId zone true s).1 = true := by
      rw [hstep]
    simp [iterShouldCount, hfst,
      iterShouldCount_replicate_false now today trackId zone k _ hday2 hz2]
  · intro zone2 hne hz2
    have hz3 : zone2 ∉ countedZones trackId (shouldCount now today trackId zone true s).2 := by
      rw [hcz]
      simp [hz2, hne]
    have h2 := shouldCount_fresh now today _ trackId zone2 hday2 hz3
    rw [h2]

/-- Witness for C1: three calls on a fresh store give
`[True, False, False]`, and a second zone still counts. -/
theorem claim_C1_witness :
    (iterShouldCount 5 0 1 "A" 3 (initState 0 0)).1 = [true, false, false]
    ∧ (shouldCount 5 0 1 "B" true (shouldCount 5 0 1 "A" true (initState 0 0)).2).1 = true := by
  have h := claim_C1_count_once_per_zone 5 0 (initState 0 0) 1 "A" 3 rfl
    (by simp [countedZones, initState, lookupA]) (by norm_num)
  exact ⟨h.1, h.2 "B" (by decide) (by simp [countedZones, initState, lookupA])⟩

/-- Counterexample to C2 as stated: `update_ppe_status` is a mutating
operation (it writes `_ppe_history`) but never calls
`_check_date_reset` — it does not consult the wall clock at all. Run
while the ambient wall-clock day is 1 and the stored date is 0, it
leaves the counted-zone map uncleared and the stored date at 0, so "on
every mutating operation … the maps are cleared and the stored date
advances" fails on this operation. -/
theorem claim_C2_counterexample :
    stateDay0.currentDate < 1
    ∧ (updatePpeStatus 2 true true 5 1 stateDay0).violationZones = stateDay0.violationZones
    ∧ (updatePpeStatus 2 true true 5 1 stateDay0).violationZones ≠ []
    ∧ (updatePpeStatus 2 true true 5 1 stateDay0).lastSeen = stateDay0.lastSeen
    ∧ (updatePpeStatus 2 true true 5 1 stateDay0).lastZone = stateDay0.lastZone
    ∧ (updatePpeStatus 2 true true 5 1 stateDay0).currentDate = 0 := by
  refine ⟨by norm_num [stateDay0], ?_⟩
  norm_num [updatePpeStatus, stateDay0]

/-- Claim C2 amended: on every mutating operation that performs the
rollover check (`should_count`, `update_seen`, `cleanup_old_tracks` —
not `update_ppe_status`, which never consults the clock), if the
wall-clock date has advanced past the stored date then the counted-zone,
last-seen and last-zone maps are cleared, the PPE-status memory is
preserved unchanged, and the stored date advances; afterwards a
previously-counted (identity, zone) pair returns `True` again. -/
theorem claim_C2_amended (s : TrackState) (today : Nat) (h : s.currentDate < today) :
    checkDateReset today s = TrackState.mk s.resetHour [] [] [] s.ppeHistory today
    ∧ (∀ (now : ℚ) (trackId : Nat) (zone : String) (iv : Bool),
        (shouldCount now today trackId zone iv s).2.currentDate = today)
    ∧ (∀ (now : ℚ) (trackId : Nat) (zone : String) (ts : Option ℚ),
        (updateSeen now today trackId zone ts s).currentDate = today)
    ∧ (∀ (now age : ℚ), (cleanupOldTracks now today age s).2.currentDate = today)
    ∧ (∀ (now : ℚ) (trackId : Nat) (zone : String), zone ∈ countedZones trackId s →
        (shouldCount now today trackId zone true s).1 = true) := by
  have hgt : today > s.currentDate := h
  have h1 : checkDateReset today s = TrackState.mk s.resetHour [] [] [] s.ppeHistory today := by
    simp [checkDateReset, hgt, TrackState.resetOp]
  refine ⟨h1, ?_, ?_, ?_, ?_⟩
  · intro now trackId zone iv
    cases iv <;> simp [shouldCount, h1, lookupA]
  · intro now trackId zone ts
    simp [updateSeen, h1]
  · intro now age
    simp [cleanupOldTracks, h1]
  · intro now trackId zone hz
    simp [shouldCount, h1, lookupA]

/-- Witness for the amended C2 on a concrete stale store. -/
theorem claim_C2_witness :
    checkDateReset 1 stateDay0 = TrackState.mk 0 [] [] [] [] 1
    ∧ (shouldCount 6 1 1 "A" true stateDay0).1 = true := by
  have h := claim_C2_amended stateDay0 1 (by norm_num [stateDay0])
  exact ⟨h.1, h.2.2.2.2 6 1 "A" (by decide)⟩

/-- Claim C3: `get_ppe_status(identity, frame_idx, max_frame_gap)`
returns the memorized PPE record exactly when the identity has a
recorded status and `frame_idx - recorded_frame ≤ max_frame_gap`, and
returns `None` otherwise; with the default window 30, a gap of exactly
30 returns the last status and a gap of 31 returns `None`. -/
theorem claim_C3_get_ppe_status :
    (∀ (s : TrackState) (trackId : Nat) (frameIdx maxFrameGap : Int) (r : PpeRecord),
        getPpeStatus trackId frameIdx maxFrameGap s = some r ↔
          lookupA trackId s.ppeHistory = some r ∧ frameIdx - r.frame ≤ maxFrameGap)
    ∧ (∀ (s : TrackState) (trackId : Nat) (frameIdx maxFrameGap : Int),
        getPpeStatus trackId frameIdx maxFrameGap s = none ↔
          ∀ r, lookupA trackId s.ppeHistory = some r → maxFrameGap < frameIdx - r.frame)
    ∧ getPpeStatus 1 30 30 statePpe30 = some ppeRec30
    ∧ getPpeStatus 1 31 30 statePpe30 = none := by
  refine ⟨?_, ?_, ?_, ?_⟩
  · intro s trackId frameIdx maxFrameGap r
    unfold getPpeStatus
    cases hl : lookupA trackId s.ppeHistory with
    | none => simp
    | some r0 =>
        dsimp only
        by_cases hg : frameIdx - r0.frame ≤ maxFrameGap
        · rw [if_pos hg]
          constructor
          · intro h
            injection h with h
            subst h
            exact ⟨rfl, hg⟩
          · rintro ⟨h1, h2⟩
            injection h1 with h1
            subst h1
            rfl
        · rw [if_neg hg]
          constructor
          · intro h; cases h
          · rintro ⟨h1, h2⟩
            injection h1 with h1
            subst h1
            exact absurd h2 hg
  · intro s trackId frameIdx maxFrameGap
    unfold getPpeStatus
    cases hl : lookupA trackId s.ppeHistory with
    | none =>
        simp
    | some r0 =>
        dsimp only
        by_cases hg : frameIdx - r0.frame ≤ maxFrameGap
        · rw [if_pos hg]
          constructor
          · intro h; cases h
          · intro h
            exact absurd hg (not_le.mpr (h r0 rfl))
        · rw [if_neg hg]
          constructor
          · intro _ r hr
            injection hr with hr
            subst hr
            omega
          · intro _; rfl
  · norm_num [statePpe30, ppeRec30, updatePpeStatus, getPpeStatus, initState, insertA, lookupA]
  · norm_num [statePpe30, ppeRec30, updatePpeStatus, getPpeStatus, initState, insertA, lookupA]

/-- Claim C4: `update_ppe_status` overwrites the remembered PPE record
for the identity exactly when `confidence > 0.7`, and is a strict no-op
(the whole state is unchanged) when `confidence ≤ 0.7`. -/
theorem claim_C4_update_ppe_status (s : TrackState) (trackId : Nat) (hh hv : Bool)
    (frameIdx : Int) (c : ℚ) :
    (7/10 < c →
        updatePpeStatus trackId hh hv frameIdx c s =
          { s with ppeHistory :=
              insertA trackId (PpeRecord.mk hh hv frameIdx c) s.ppeHistory })
    ∧ (c ≤ 7/10 → updatePpeStatus trackId hh hv frameIdx c s = s) := by
  constructor
  · intro h
    simp [updatePpeStatus, h]
  · intro h
    have h2 : ¬ (7/10 < c) := not_lt.mpr h
    simp [updatePpeStatus, h2]

/-- Witness for C4 at confidence 1 (overwrite) and 1/2 (no-op). -/
theorem claim_C4_witness :
    updatePpeStatus 1 true true 5 1 (initState 0 0) =
      (⟨0, [], [], [], [(1, ⟨true, true, 5, 1⟩)], 0⟩ : TrackState)
    ∧ updatePpeStatus 1 true true 5 (1/2) (initState 0 0) = initState 0 0 := by
  constructor
  · have h := (claim_C4_update_ppe_status (initState 0 0) 1 true true 5 1).1 (by norm_num)
    rw [h]
    rfl
  · exact (claim_C4_update_ppe_status (initState 0 0) 1 true true 5 (1/2)).2 (by norm_num)

/-- Claim C6: `should_count(i, z, False)` returns `False`, leaves the
deduplication map (and the PPE memory) unchanged, and still records the
last-seen time and last zone of the identity. Stated within a day
(`today = s.currentDate`), matching the claim's scope. -/
theorem claim_C6_should_count_false (now : ℚ) (today : Nat) (s : TrackState)
    (trackId : Nat) (zone : String) (hday : today = s.currentDate) :
    (shouldCount now today trackId zone false s).1 = false
    ∧ (shouldCount now today trackId zone false s).2.violationZones = s.violationZones
    ∧ (shouldCount now today trackId zone false s).2.ppeHistory = s.ppeHistory
    ∧ lookupA trackId (shouldCount now today trackId zone false s).2.lastSeen = some now
    ∧ lookupA trackId (shouldCount now today trackId zone false s).2.lastZone = some zone := by
  have hcd : checkDateReset today s = s := checkDateReset_noop (le_of_eq hday)
  simp [shouldCount, hcd, lookupA_insertA_self]

/-- Witness for C6 on a fresh store. -/
theorem claim_C6_witness :
    (shouldCount 5 0 1 "A" false (initState 0 0)).1 = false
    ∧ (shouldCount 5 0 1 "A" false (initState 0 0)).2.violationZones = (initState 0 0).violationZones
    ∧ (shouldCount 5 0 1 "A" false (initState 0 0)).2.ppeHistory = (initState 0 0).ppeHistory
    ∧ lookupA 1 (shouldCount 5 0 1 "A" false (initState 0 0)).2.lastSeen = some 5
    ∧ lookupA 1 (shouldCount 5 0 1 "A" false (initState 0 0)).2.lastZone = some "A" :=
  claim_C6_should_count_false 5 0 (initState 0 0) 1 "A" rfl

/-- Counterexample to C9 as stated: `export_state` does not serialize
`_ppe_history`, so importing into a fresh store loses the occlusion
memory — the claim's "PPE-status (occlusion) memory" equality fails. -/
theorem claim_C9_counterexample :
    (importState (exportState stateWithPpe) (initState 7 0)).ppeHistory ≠
      stateWithPpe.ppeHistory := by
  simp [importState, exportState, stateWithPpe, initState]

/-- Claim C9 amended: the export/import round trip restores the
counted-zone map, last-seen map, last-zone map and the stored date; the
PPE-status memory (and the reset-hour parameter) of the importing store
keep their previous values — empty on a fresh store. -/
theorem claim_C9_amended (src dst : TrackState) :
    (importState (exportState src) dst).violationZones = src.violationZones
    ∧ (importState (exportState src) dst).lastSeen = src.lastSeen
    ∧ (importState (exportState src) dst).lastZone = src.lastZone
    ∧ (importState (exportState src) dst).currentDate = src.currentDate
    ∧ (importState (exportState src) dst).ppeHistory = dst.ppeHistory
    ∧ (importState (exportState src) dst).resetHour = dst.resetHour := by
  simp [importState, exportState]

/-- Claim C5: within a day, `cleanup_old_tracks(max_age_seconds)`
removes from the last-seen and last-zone maps exactly the identities
whose last-seen age strictly exceeds `max_age_seconds`, returns how many
were removed, and leaves the counted-zone map (and PPE memory)
unchanged, so a purged identity reappearing in an already-counted zone
is still not counted again that day. Stated for states with duplicate-free
map keys, the invariant maintained by every operation. -/
theorem claim_C5_cleanup (s : TrackState) (now : ℚ) (today : Nat) (age : ℚ)
    (hday : today = s.currentDate)
    (hns : (s.lastSeen.map Prod.fst).Nodup)
    (hnz : (s.lastZone.map Prod.fst).Nodup) :
    (cleanupOldTracks now today age s).2.violationZones = s.violationZones
    ∧ (cleanupOldTracks now today age s).2.ppeHistory = s.ppeHistory
    ∧ (cleanupOldTracks now today age s).1 =
        (s.lastSeen.filter (fun p => now - p.2 > age)).length
    ∧ (∀ (trackId : Nat) (t : ℚ), lookupA trackId s.lastSeen = some t → now - t > age →
        lookupA trackId (cleanupOldTracks now today age s).2.lastSeen = none
        ∧ lookupA trackId (cleanupOldTracks now today age s).2.lastZone = none)
    ∧ (∀ (trackId : Nat) (t : ℚ), lookupA trackId s.lastSeen = some t → ¬ (now - t > age) →
        lookupA trackId (cleanupOldTracks now today age s).2.lastSeen = some t
        ∧ lookupA trackId (cleanupOldTracks now today age s).2.lastZone =
            lookupA trackId s.lastZone)
    ∧ (∀ trackId : Nat, lookupA trackId s.lastSeen = none →
        lookupA trackId (cleanupOldTracks now today age s).2.lastZone =
          lookupA trackId s.lastZone)
    ∧ (∀ (now2 : ℚ) (trackId : Nat) (zone : String), zone ∈ countedZones trackId s →
        (shouldCount now2 today trackId zone true (cleanupOldTracks now today age s).2).1
          = false) := by
  have hcd : checkDateReset today s = s := checkDateReset_noop (le_of_eq hday)
  have hres : cleanupOldTracks now today age s =
      (((s.lastSeen.filter (fun q => now - q.2 > age)).map Prod.fst).length,
       { s with
           lastSeen := s.lastSeen.filter (fun p => ¬ (now - p.2 > age))
           lastZone := s.lastZone.filter (fun p =>
             p.1 ∉ (s.lastSeen.filter (fun q => now - q.2 > age)).map Prod.fst) }) := by
    unfold cleanupOldTracks
    rw [hcd]
  have staleIff : ∀ trackId : Nat,
      trackId ∈ (s.lastSeen.filter (fun q => now - q.2 > age)).map Prod.fst ↔
        ∃ t, lookupA trackId s.lastSeen = some t ∧ now - t > age := by
    intro trackId
    constructor
    · intro hmem
      rcases List.mem_map.mp hmem with ⟨pair, hpair, hfst⟩
      rcases List.mem_filter.mp hpair with ⟨hmem2, hstale⟩
      refine ⟨pair.2, ?_, ?_⟩
      · have : (trackId, pair.2) ∈ s.lastSeen := by
          rw [← hfst]
          exact hmem2
        exact lookupA_of_mem_nodup hns this
      · exact of_decide_eq_true hstale
    · rintro ⟨t, hl, hstale⟩
      exact List.mem_map.mpr ⟨(trackId, t),
        List.mem_filter.mpr ⟨mem_of_lookupA hl, decide_eq_true hstale⟩, rfl⟩
  rw [hres]
  refine ⟨rfl, rfl, by simp, ?_, ?_, ?_, ?_⟩
  · intro trackId t hl hstale
    constructor
    · refine lookupA_filter_drop _ trackId t s.lastSeen hns hl ?_
      simp only [decide_eq_false_iff_not, Decidable.not_not]
      exact hstale
    · cases hz : lookupA trackId s.lastZone with
      | none => exact lookupA_filter_none _ trackId s.lastZone hnz hz
      | some z =>
          refine lookupA_filter_drop _ trackId z s.lastZone hnz hz ?_
          simp only [decide_eq_false_iff_not, Decidable.not_not]
          exact (staleIff trackId).mpr ⟨t, hl, hstale⟩
  · intro trackId t hl hfresh
    have hnotstale : trackId ∉ (s.lastSeen.filter (fun q => now - q.2 > age)).map Prod.fst := by
      intro hmem
      rcases (staleIff trackId).mp hmem with ⟨t2, hl2, hstale2⟩
      rw [hl] at hl2
      injection hl2 with hl2
      subst hl2
      exact hfresh hstale2
    constructor
    · refine lookupA_filter_keep _ trackId t s.lastSeen hns hl ?_
      simp only [decide_eq_true_eq]
      exact hfresh
    · cases hz : lookupA trackId s.lastZone with
      | none =>
          rw [lookupA_filter_none _ trackId s.lastZone hnz hz]
      | some z =>
          rw [lookupA_filter_keep _ trackId z s.lastZone hnz hz
            (by simp only [decide_eq_true_eq]; exact hnotstale)]
  · intro trackId hl
    have hnotstale : trackId ∉ (s.lastSeen.filter (fun q => now - q.2 > age)).map Prod.fst := by
      intro hmem
      rcases (staleIff trackId).mp hmem with ⟨t2, hl2, _⟩
      rw [hl] at hl2
      cases hl2
    cases hz : lookupA trackId s.lastZone with
    | none =>
        rw [lookupA_filter_none _ trackId s.lastZone hnz hz]
    | some z =>
        rw [lookupA_filter_keep _ trackId z s.lastZone hnz hz
          (by simp only [decide_eq_true_eq]; exact hnotstale)]
  · intro now2 trackId zone hz
    have hz2 : zone ∈ countedZones trackId
        { s with
            lastSeen := s.lastSeen.filter (fun p => ¬ (now - p.2 > age))
            lastZone := s.lastZone.filter (fun p =>
              p.1 ∉ (s.lastSeen.filter (fun q => now - q.2 > age)).map Prod.fst) } := by
      simpa [countedZones] using hz
    exact shouldCount_false_of_counted now2 today _ trackId zone hz2 hday

/-- Witness for C5: the spec scenario — track 3 last seen 400 s ago,
track 4 seen 10 s ago, threshold 300 s. -/
theorem claim_C5_witness :
    (cleanupOldTracks 1000 0 300 stateCleanup).1 = 1
    ∧ lookupA 3 (cleanupOldTracks 1000 0 300 stateCleanup).2.lastSeen = none
    ∧ lookupA 3 (cleanupOldTracks 1000 0 300 stateCleanup).2.lastZone = none
    ∧ lookupA 4 (cleanupOldTracks 1000 0 300 stateCleanup).2.lastSeen = some 990
    ∧ (cleanupOldTracks 1000 0 300 stateCleanup).2.violationZones =
        stateCleanup.violationZones
    ∧ (shouldCount 1000 0 3 "Dock" true (cleanupOldTracks 1000 0 300 stateCleanup).2).1
        = false := by
  have h := claim_C5_cleanup stateCleanup 1000 0 300 rfl
    (by simp [stateCleanup]) (by simp [stateCleanup])
  have hstale := h.2.2.2.1 3 600 (by norm_num [stateCleanup, lookupA]) (by norm_num)
  have hfresh := h.2.2.2.2.1 4 990 (by norm_num [stateCleanup, lookupA]) (by norm_num)
  refine ⟨?_, hstale.1, hstale.2, hfresh.1, h.1, ?_⟩
  · rw [h.2.2.1]
    norm_num [stateCleanup, List.filter_cons]
  · exact h.2.2.2.2.2.2 1000 3 "Dock" (by simp [countedZones, stateCleanup, lookupA])

/-- Counterexample to C7 as stated: the validator `is_valid_bbox` also
requires `area ≥ min_area = 1.0`, so a box with positive width `1/2` and
positive height `1/2` (area `1/4`) is rejected at the validation step:
`is_violation` returns `(False, "")` even though the zone-containment
step would have matched the mandatory zone and reported a violation. -/
theorem claim_C7_counterexample :
    (0 : ℚ) < tinyBox.x2 - tinyBox.x1
    ∧ (0 : ℚ) < tinyBox.y2 - tinyBox.y1
    ∧ is_valid_bbox tinyBox = false
    ∧ is_violation tinyBox [] [zoneBig] = (false, "")
    ∧ evalInZone tinyBox [] [zoneBig] (5/100) (35/100) = (true, "CraneBay") := by
  refine ⟨by norm_num [tinyBox], by norm_num [tinyBox], ?_, ?_, ?_⟩
  · norm_num [is_valid_bbox, bbox_area, tinyBox]
  · norm_num [is_violation, is_valid_bbox, bbox_area, tinyBox]
  · norm_num [evalInZone, point_in_polygons, polygonContains, pointOnBoundary, polyEdges,
      onSegment, cross2, oddCrossings, rayCrosses, bbox_centroid, zoneBig, tinyBox,
      helmetDetected, List.countP, List.countP.go, List.find?]

/-- Claim C7 amended: the evaluator returns `(False, "")` at the
validation step exactly when the person box fails
`x1 < x2 ∧ y1 < y2 ∧ area ≥ 1` (non-positive width or height, or
positive but with area below the default `min_area = 1.0`); boxes that
pass proceed to the zone-containment evaluation, and no input raises. -/
theorem claim_C7_amended (person : BBox) (helmets : List BBox) (zones : List ZonePoly)
    (t fr : ℚ) :
    (is_valid_bbox person = true ↔
        person.x1 < person.x2 ∧ person.y1 < person.y2 ∧ 1 ≤ bbox_area person)
    ∧ is_violation person helmets zones t fr =
        (if is_valid_bbox person then evalInZone person helmets zones t fr
         else (false, "")) := by
  constructor
  · unfold is_valid_bbox
    by_cases h1 : person.x2 ≤ person.x1 ∨ person.y2 ≤ person.y1
    · rw [if_pos h1]
      simp only [Bool.false_eq_true, false_iff]
      rintro ⟨hx, hy, _⟩
      rcases h1 with h1 | h1 <;> linarith
    · rw [if_neg h1]
      push_neg at h1
      simp [decide_eq_true_eq, h1.1, h1.2, ge_iff_le]
  · unfold is_violation
    by_cases h : is_valid_bbox person
    · simp [h]
    · simp [h]

/-- Counterexample to C8 as stated: shapely `contains` tests the
topological interior, so a centroid on a zone's boundary does NOT count
as contained — `point_in_polygons` returns `(False, "")` for the point
`(0, 50)` on the left edge of the square zone, where the claim's
"boundary points count as contained" predicts `(True, "CraneBay")`. -/
theorem claim_C8_counterexample :
    pointOnBoundary sqPts ((0 : ℚ), (50 : ℚ)) = true
    ∧ point_in_polygons ((0 : ℚ), (50 : ℚ)) [zoneCrane] = (false, "") := by
  constructor
  · norm_num [pointOnBoundary, polyEdges, onSegment, cross2, sqPts]
  · norm_num [point_in_polygons, polygonContains, pointOnBoundary, polyEdges, onSegment,
      cross2, sqPts, zoneCrane]

/-- Claim C8 amended: the matched zone is the first polygon in list
order that strictly contains the point (boundary points do NOT count as
contained, per shapely `contains`); overlapping zones resolve to the
first match in list order with no area tie-break, and when no zone
contains the centroid the evaluator returns `(False, "")`. -/
theorem claim_C8_amended (p : Pt) (polys : List ZonePoly) :
    (point_in_polygons p polys =
        match polys.find? (fun z => polygonContains z.points p) with
        | some z => (true, z.name)
        | none => (false, ""))
    ∧ (∀ (pts : List Pt) (q : Pt), pointOnBoundary pts q = true →
        polygonContains pts q = false)
    ∧ (∀ (person : BBox) (helmets : List BBox) (zones : List ZonePoly) (t fr : ℚ),
        (point_in_polygons (bbox_centroid person) zones).1 = false →
        evalInZone person helmets zones t fr = (false, "")) := by
  refine ⟨?_, ?_, ?_⟩
  · induction polys with
    | nil => rfl
    | cons z rest ih =>
        by_cases h : polygonContains z.points p
        · simp [point_in_polygons, h, List.find?_cons_of_pos]
        · simp [point_in_polygons, h, List.find?_cons_of_neg, ih]
  · intro pts q hb
    simp [polygonContains, hb]
  · intro person helmets zones t fr h
    simp [evalInZone, h]

/-- Witness for the amended C8: first-match wins on two overlapping
zones, a boundary point is not contained, and a centroid outside every
zone yields `(False, "")`. -/
theorem claim_C8_witness :
    point_in_polygons ((50 : ℚ), (50 : ℚ)) [zoneCrane, zoneDock] = (true, "CraneBay")
    ∧ polygonContains sqPts ((0 : ℚ), (50 : ℚ)) = false
    ∧ evalInZone (BBox.mk 140 140 160 160) [] [zoneCrane] (5/100) (35/100) = (false, "") := by
  refine ⟨?_, ?_, ?_⟩
  · rw [(claim_C8_amended (50, 50) [zoneCrane, zoneDock]).1]
    norm_num [List.find?, polygonContains, pointOnBoundary, polyEdges, onSegment, cross2,
      oddCrossings, rayCrosses, sqPts, zoneCrane, List.countP, List.countP.go]
  · exact (claim_C8_amended (50, 50) [zoneCrane]).2.1 sqPts (0, 50)
      (by norm_num [pointOnBoundary, polyEdges, onSegment, cross2, sqPts])
  · exact (claim_C8_amended (50, 50) [zoneCrane]).2.2 (BBox.mk 140 140 160 160) [] [zoneCrane]
      (5/100) (35/100)
      (by norm_num [point_in_polygons, polygonContains, pointOnBoundary, polyEdges, onSegment,
        cross2, oddCrossings, rayCrosses, bbox_centroid, sqPts, zoneCrane,
        List.countP, List.countP.go])

/-! ## Reset-hour independence (C10) -/

theorem checkDateReset_setResetHour (today : Nat) (s : TrackState) (rh : Nat) :
    checkDateReset today (setResetHour rh s) = setResetHour rh (checkDateReset today s) := by
  obtain ⟨r, vz, ls, lz, ph, cd⟩ := s
  unfold checkDateReset setResetHour TrackState.resetOp
  by_cases hd : today > cd <;> simp [hd]

theorem shouldCount_setResetHour (now : ℚ) (today : Nat) (trackId : Nat) (zone : String)
    (iv : Bool) (s : TrackState) (rh : Nat) :
    shouldCount now today trackId zone iv (setResetHour rh s) =
      ((shouldCount now today trackId zone iv s).1,
       setResetHour rh (shouldCount now today trackId zone iv s).2) := by
  unfold shouldCount
  rw [checkDateReset_setResetHour]
  generalize checkDateReset today s = u
  obtain ⟨r, vz, ls, lz, ph, cd⟩ := u
  cases iv
  · rfl
  · simp only [setResetHour]
    cases hl : lookupA trackId vz with
    | none => rfl
    | some zones => by_cases hz : zone ∈ zones <;> simp [hz]

theorem updateSeen_setResetHour (now : ℚ) (today : Nat) (trackId : Nat) (zone : String)
    (ts : Option ℚ) (s : TrackState) (rh : Nat) :
    updateSeen now today trackId zone ts (setResetHour rh s) =
      setResetHour rh (updateSeen now today trackId zone ts s) := by
  unfold updateSeen
  rw [checkDateReset_setResetHour]
  rfl

theorem cleanupOldTracks_setResetHour (now : ℚ) (today : Nat) (age : ℚ)
    (s : TrackState) (rh : Nat) :
    cleanupOldTracks now today age (setResetHour rh s) =
      ((cleanupOldTracks now today age s).1,
       setResetHour rh (cleanupOldTracks now today age s).2) := by
  unfold cleanupOldTracks
  rw [checkDateReset_setResetHour]
  rfl

theorem updatePpeStatus_setResetHour (trackId : Nat) (hh hv : Bool) (fi : Int) (c : ℚ)
    (s : TrackState) (rh : Nat) :
    updatePpeStatus trackId hh hv fi c (setResetHour rh s) =
      setResetHour rh (updatePpeStatus trackId hh hv fi c s) := by
  unfold updatePpeStatus
  by_cases hc : c > 7/10
  · rw [if_pos hc, if_pos hc]
    rfl
  · rw [if_neg hc, if_neg hc]

theorem applyOp_setResetHour (op : Op) (s : TrackState) (rh : Nat) :
    applyOp op (setResetHour rh s) =
      ((applyOp op s).1, setResetHour rh (applyOp op s).2) := by
  cases op with
  | opShouldCount now today trackId zone iv =>
      simp [applyOp, shouldCount_setResetHour]
  | opUpdateSeen now today trackId zone ts =>
      simp [applyOp, updateSeen_setResetHour]
  | opCleanup now today age =>
      simp [applyOp, cleanupOldTracks_setResetHour]
  | opUpdatePpe trackId hh hv fi c =>
      simp [applyOp, updatePpeStatus_setResetHour]
  | opGetPpe trackId fi gap => rfl
  | opGetTrackInfo trackId => rfl
  | opGetStats => rfl
  | opExport => rfl
  | opImport e => rfl
  | opReset => rfl

theorem runOps_setResetHour (ops : List Op) : ∀ (s : TrackState) (rh : Nat),
    runOps ops (setResetHour rh s) =
      ((runOps ops s).1, setResetHour rh (runOps ops s).2) := by
  induction ops with
  | nil => intro s rh; simp [runOps]
  | cons op rest ih =>
      intro s rh
      simp [runOps, applyOp_setResetHour, ih]

/-- Claim C10: the `reset_hour` constructor parameter has no observable
effect. Two stores built with different `reset_hour` values return
identical results on every identical sequence of interface calls
(including the exported state, statistics and per-track views), and end
in states that agree on every component except the stored `reset_hour`
parameter itself, which keeps its constructor value — resets are
triggered only by the calendar-date comparison, never by the hour. -/
theorem claim_C10_reset_hour_unobservable (d h1 h2 : Nat) (ops : List Op) :
    (runOps ops (initState d h1)).1 = (runOps ops (initState d h2)).1
    ∧ observables (runOps ops (initState d h1)).2 = observables (runOps ops (initState d h2)).2
    ∧ (runOps ops (initState d h1)).2.resetHour = h1
    ∧ (runOps ops (initState d h2)).2.resetHour = h2 := by
  have key : ∀ h : Nat, runOps ops (initState d h) =
      ((runOps ops (initState d 0)).1, setResetHour h (runOps ops (initState d 0)).2) := by
    intro h
    have he : initState d h = setResetHour h (initState d 0) := rfl
    rw [he, runOps_setResetHour]
  rw [key h1, key h2]
  simp [observables, setResetHour]

end AICompliance
